import Mathlib
set_option maxRecDepth 8000
set_option exponentiation.threshold 2000

/-!
Verification development for the twitterscrapper repository.

The Python sources under scrutiny are shallowly embedded below:
* `src/scraper/utils.py` (`parse_count`),
* `src/scraper/core.py` (`TwitterScraper`: `_extract_profile_data`,
  `scrape_profile`, `_parse_tweet_element`, `scrape_tweets`,
  `scrape_following`),
* `src/main.py` (`run_discovery_job`, `/discover`, `/sync-tweets`,
  `/jobs/{id}` handlers, in-memory `jobs` store),
* `src/jobs/tweet_sync.py` (`run_tweet_sync_job`).

Modelling conventions:
* DOM queries performed through BeautifulSoup (`find`, `find_all`,
  `get_text`) are the environment boundary: an environment record supplies
  their results.  All computation on the query results (regular-expression
  searches over extracted text, numeric normalisation, dedup, loop control)
  is embedded directly.
* Python exceptions are modelled with `Except`/`Option`: a raising
  operation returns the error constructor, a `try/except` block is a
  `match` on it.
* CPython `float` values are idealised as exact rationals: a numeric
  literal is evaluated exactly rather than rounded to IEEE-754 binary64.
  The literal keywords `inf`/`infinity`/`nan` and the overflow of literals
  of magnitude at least 2^1024 to infinity are modelled (the exact IEEE
  overflow boundary is 2^1024 - 2^970; the difference is irrelevant for
  every statement proved here).  The concrete values appearing in the
  claims were checked to agree with CPython.
* Strings are treated as ASCII for `strip`/`upper`/`\s`/`\d`; the markup
  fields exercised here are handles and counter texts, which are ASCII.
-/

namespace TwScrap

/-! ## Python string primitives -/

/-- ASCII whitespace, the characters Python's `str.strip()` and the regex
class `\s` recognise (restricted to ASCII). -/
def pyWs (c : Char) : Bool :=
  c = ' ' || c = '\t' || c = '\n' || c = '\r' || c = '\x0b' || c = '\x0c'

/-- `str.strip()` on a character list: drop ASCII whitespace on both ends. -/
def stripWsList (l : List Char) : List Char :=
  ((l.dropWhile pyWs).reverse.dropWhile pyWs).reverse

/-- `str.strip()` (whitespace form). -/
def pyStrip (s : String) : String := String.mk (stripWsList s.data)

/-- `str.strip('/')` as used on listing-page hrefs. -/
def pyStripSlashes (s : String) : String :=
  String.mk (((s.data.dropWhile (· = '/')).reverse.dropWhile (· = '/')).reverse)

/-- `str.upper()` restricted to ASCII. -/
def pyUpper (s : String) : String := String.mk (s.data.map Char.toUpper)

/-- `str.lower()` of a single character, for case-insensitive matching. -/
def lower1 (c : Char) : Char := c.toLower

/-- Digits of a decimal literal as a natural number. -/
def digitsToNat (l : List Char) : Nat :=
  l.foldl (fun acc c => 10 * acc + (c.toNat - '0'.toNat)) 0

/-! ## CPython `float(...)` literal parsing, idealised as exact decimals

A finite value is kept as `± mant · 10 ^ exp` with `mant : Nat` and
`exp : Int`; this represents the literal's exact value (CPython rounds it
to the nearest binary64, an idealisation documented in the header). -/

/-- The value of a CPython float: a finite exact decimal, a signed
infinity, or NaN. -/
inductive PyFloat where
  | finite (pos : Bool) (mant : Nat) (exp : Int)
  | inf (pos : Bool)
  | nan
deriving DecidableEq, Repr

/-- Take a Python digit-part: digits optionally separated by single
underscores placed between two digits.  Returns the digits (underscores
removed) and the rest of the input. -/
def takeDigitsUGo : List Char → List Char × List Char
  | [] => ([], [])
  | '_' :: c2 :: r2 =>
    if c2.isDigit then
      let p := takeDigitsUGo r2
      (c2 :: p.1, p.2)
    else ([], '_' :: c2 :: r2)
  | c :: r =>
    if c.isDigit then
      let p := takeDigitsUGo r
      (c :: p.1, p.2)
    else ([], c :: r)

/-- Take a Python digit-part (entry point: the first character must be a
digit for anything to be consumed). -/
def takeDigitsU (l : List Char) : List Char × List Char :=
  match l with
  | [] => ([], [])
  | c :: r =>
    if c.isDigit then
      let p := takeDigitsUGo r
      (c :: p.1, p.2)
    else ([], c :: r)

/-- Parse the exponent tail `[eE][+-]?digits` (empty input allowed,
meaning exponent 0).  `none` signals a malformed literal. -/
def parseExp : List Char → Option Int
  | [] => some 0
  | c :: rest =>
    if c = 'e' || c = 'E' then
      let (sign, r1) : Int × List Char :=
        match rest with
        | '+' :: r => (1, r)
        | '-' :: r => (-1, r)
        | r => (1, r)
      let (ds, r2) := takeDigitsU r1
      if ds = [] || r2 ≠ [] then none
      else some (sign * (digitsToNat ds : Int))
    else none

/-- Parse the unsigned body of a decimal literal:
`digits [. digits] [exp]` with at least one mantissa digit.  The result is
the exact value `mant · 10 ^ exp`. -/
def parseDecimalBody (l : List Char) : Option (Nat × Int) :=
  let (ip, r1) := takeDigitsU l
  let (fp, r2) :=
    match r1 with
    | '.' :: r => takeDigitsU r
    | _ => ([], r1)
  if ip = [] && fp = [] then none
  else
    match parseExp r2 with
    | none => none
    | some e => some (digitsToNat (ip ++ fp), e - (fp.length : Int))

/-- Case-insensitive keyword test for the whole remaining input. -/
def isKeyword (kw : String) (l : List Char) : Bool :=
  l.map lower1 = kw.data

/-- Whether `mant · 10 ^ exp` reaches the magnitude at which CPython's
`float(...)` overflows to infinity (idealised threshold 2^1024, see the
module docstring). -/
def decOverflow (mant : Nat) (exp : Int) : Bool :=
  if 0 ≤ exp then 2 ^ 1024 ≤ mant * 10 ^ exp.toNat
  else 2 ^ 1024 * 10 ^ (-exp).toNat ≤ mant

/-- CPython `float(s)`: `none` models a `ValueError`. -/
def pyFloat (s : String) : Option PyFloat :=
  let l := stripWsList s.data
  let (pos, l) : Bool × List Char :=
    match l with
    | '+' :: r => (true, r)
    | '-' :: r => (false, r)
    | r => (true, r)
  if isKeyword "inf" l || isKeyword "infinity" l then some (.inf pos)
  else if isKeyword "nan" l then some .nan
  else
    match parseDecimalBody l with
    | none => none
    | some me =>
      if decOverflow me.1 me.2 then some (.inf pos)
      else some (.finite pos me.1 me.2)

/-- CPython `int(x)` on a finite float `± mant · 10 ^ exp`: truncation
toward zero (`Nat` division floors the magnitude, the sign is reapplied
afterwards, which is exactly round-toward-zero). -/
def pyIntOfFinite (pos : Bool) (mant : Nat) (exp : Int) : Int :=
  let m : Nat := if 0 ≤ exp then mant * 10 ^ exp.toNat else mant / 10 ^ (-exp).toNat
  if pos then (m : Int) else -(m : Int)

/-! ## `parse_count` (src/scraper/utils.py) -/

/-- Last-character test, the list-level form of `str.endswith(c)` for a
one-character suffix. -/
def lastIs (s : String) (c : Char) : Bool := s.data.getLast? = some c

/-- Drop the final character (`count_str[:-1]`). -/
def stripLastChar (s : String) : String := String.mk s.data.dropLast

/-- `count_str.replace(',', '')`: removing every comma (the pattern is a
single character and the replacement empty, so `replace` is a filter). -/
def removeCommas (s : String) : String :=
  String.mk (s.data.filter (fun c => c ≠ ','))

/-- The suffix step of `parse_count` on the stripped, upper-cased input:
peel a trailing `K`/`M`/`B` (tested in that order with `elif`) and return
the base-10 exponent of the multiplier (10^3, 10^6, 10^9) together with
the remainder. -/
def pcSuffix (t : String) : Nat × String :=
  if lastIs t 'K' then (3, stripLastChar t)
  else if lastIs t 'M' then (6, stripLastChar t)
  else if lastIs t 'B' then (9, stripLastChar t)
  else (0, t)

/-- `parse_count` from `src/scraper/utils.py`.  `.error ()` models the
uncaught `OverflowError` raised by `int(float(...) * multiplier)` when the
numeric body parses to an infinite float: the source catches only
`ValueError`.  A `ValueError` from `float(...)` or from `int(nan)` yields
`.ok 0`.  Multiplying the exact decimal by the power-of-ten multiplier is
an exponent shift. -/
def parse_count (s : String) : Except Unit Int :=
  if s = "" then .ok 0
  else
    match pyFloat (removeCommas (pcSuffix (pyUpper (pyStrip s))).2) with
    | none => .ok 0
    | some .nan => .ok 0
    | some (.inf _) => .error ()
    | some (.finite pos mant exp) =>
      .ok (pyIntOfFinite pos mant (exp + ((pcSuffix (pyUpper (pyStrip s))).1 : Int)))

instance {ε α : Type} [DecidableEq ε] [DecidableEq α] : DecidableEq (Except ε α) := fun a b =>
  match a, b with
  | .ok x, .ok y =>
    if h : x = y then isTrue (by rw [h]) else isFalse (by intro hh; cases hh; exact h rfl)
  | .error x, .error y =>
    if h : x = y then isTrue (by rw [h]) else isFalse (by intro hh; cases hh; exact h rfl)
  | .ok _, .error _ => isFalse (by intro hh; cases hh)
  | .error _, .ok _ => isFalse (by intro hh; cases hh)

example : parse_count "1.2K" = .ok 1200 := by decide
example : parse_count "2,500" = .ok 2500 := by decide
example : parse_count "3M" = .ok 3000000 := by decide
example : parse_count "4B" = .ok 4000000000 := by decide
example : parse_count "" = .ok 0 := by decide
example : parse_count "abc" = .ok 0 := by decide
example : parse_count "inf" = .error () := by decide
example : parse_count "1.2k" = .ok 1200 := by decide
example : parse_count "nan" = .ok 0 := by decide
example : parse_count "Infinity" = .error () := by decide
example : parse_count "1e400" = .error () := by decide
example : parse_count "12 " = .ok 12 := by decide

/-! ## Regular-expression searches of src/scraper/core.py

Each `re.search` in the source uses a pattern for which greedy matching
needs no backtracking (its character classes are disjoint from `\s` and
from the letters of the literal words), so each is embedded as a direct
left-to-right scan. -/

/-- The class `[\d,.KMB]` (no IGNORECASE flag). -/
def countClassU (c : Char) : Bool :=
  c.isDigit || c = ',' || c = '.' || c = 'K' || c = 'M' || c = 'B'

/-- The class `[\d,.KMB]` under `re.IGNORECASE`. -/
def countClassI (c : Char) : Bool :=
  countClassU c || c = 'k' || c = 'm' || c = 'b'

/-- First match of `([\d,.KMB]+)` anywhere in the input
(`re.search` takes the leftmost match, and `+` is greedy). -/
def firstRunBy (p : Char → Bool) : List Char → Option (List Char)
  | [] => none
  | c :: r => if p c then some (List.takeWhile p (c :: r)) else firstRunBy p r

/-- `re.search(r'([\d,.KMB]+)', s)`: the leftmost maximal run. -/
def firstRunU (s : String) : Option String :=
  (firstRunBy countClassU s.data).map String.mk

/-- `re.search(r'^([\d,.KMB]+)', s)`: a maximal run anchored at the
start. -/
def leadRunU (s : String) : Option String :=
  match s.data with
  | [] => none
  | c :: r =>
    if countClassU c then some (String.mk (List.takeWhile countClassU (c :: r)))
    else none

/-- Case-insensitive literal-prefix test on character lists. -/
def ciPrefix (w : List Char) (l : List Char) : Bool :=
  w.isPrefixOf (l.map lower1) -- the word is given in lowercase

/-- `re.search(r'(\d+)\s+<word>s?', label, re.IGNORECASE)` followed by
`int(match.group(1))`.  Returns the digits of the leftmost digit run that
is followed by whitespace and the (lowercase) word.  Starting positions
inside a digit run are subsumed by the run's start because `\d`, `\s` and
the word's letters are pairwise disjoint. -/
def searchNumWord (w : String) : List Char → Option Nat
  | [] => none
  | c :: r =>
    (if c.isDigit then
      let ds := List.takeWhile Char.isDigit (c :: r)
      let rest := List.dropWhile Char.isDigit (c :: r)
      let ws := rest.takeWhile pyWs
      let after := rest.dropWhile pyWs
      if ws ≠ [] && ciPrefix w.data after then some (digitsToNat ds) else none
    else none).orElse fun _ => searchNumWord w r

/-- One scan step of
`re.search(r'(?:^|\s)([\d,.KMB]+)\s*(?:posts|tweets)', header, re.IGNORECASE)`:
at a position preceded by start-of-input or whitespace, try a maximal
class run followed by optional whitespace and `posts`/`tweets`. -/
def searchCountWordGo : Bool → List Char → Option (List Char)
  | _, [] => none
  | atStart, c :: r =>
    (if atStart && countClassI c then
      let run := List.takeWhile countClassI (c :: r)
      let rest := List.dropWhile countClassI (c :: r)
      let after := rest.dropWhile pyWs
      if ciPrefix "posts".data after || ciPrefix "tweets".data after then some run
      else none
    else none).orElse fun _ => searchCountWordGo (pyWs c) r

/-- The header tweet-count search; returns `match.group(1)` verbatim. -/
def searchCountWord (s : String) : Option String :=
  (searchCountWordGo true s.data).map String.mk

example : searchCountWord "229.5K posts" = some "229.5K" := by decide
example : searchCountWord "foo 1,242 tweets bar" = some "1,242" := by decide
example : searchCountWord "x12 posts" = none := by decide
example : searchNumWord "like" "12 likes, 3 bookmarks".data = some 12 := by decide
example : searchNumWord "like" "reply 7 Likes".data = some 7 := by decide
example : leadRunU "1,242Following" = some "1,242" := by decide
example : firstRunU "· 23M Views" = some "23M" := by decide

/-! ## Data model (src/models/data_models.py)

Only the fields the scraper writes are carried; the remaining pydantic
fields keep their defaults in every code path modelled here and never
influence any claim. -/

/-- `models.data_models.Tweet`, restricted to the fields
`TwitterScraper._parse_tweet_element` populates. -/
structure Tweet where
  text : String
  username : String
  timestamp : Option String := none
  likes : Int := 0
  retweets : Int := 0
  replies : Int := 0
  views : Int := 0
  is_reply : Bool := false
  reply_to : Option String := none
deriving DecidableEq, Repr

/-- `models.data_models.Profile`. -/
structure Profile where
  username : String
  full_name : Option String := none
  bio : Option String := none
  location : Option String := none
  website : Option String := none
  followers_count : Int := 0
  following_count : Int := 0
  tweets_count : Int := 0
  join_date : Option String := none
  is_verified : Bool := false
  profile_image_url : Option String := none
  banner_image_url : Option String := none
  description : Option String := none
deriving DecidableEq, Repr

/-! ## Tweet-element parsing (`_parse_tweet_element`)

A `TweetElem` records the results of the BeautifulSoup queries the parser
performs on one `article[data-testid="tweet"]` element. -/

/-- An engagement button as queried: `aria-label` attribute (`''` when
absent, matching `element.get('aria-label', '')`) and stripped text. -/
structure MetricBtn where
  ariaLabel : String := ""
  text : String := ""
deriving DecidableEq, Repr

/-- Query results on one rendered tweet element.  `timeEl = some none`
is a `<time>` element without a `datetime` attribute (whose subscript
lookup raises `KeyError`); `replyDiv = some t` is a `Replying to` marker
whose following link has text `t` (or no link). -/
structure TweetElem where
  tweetText : Option String := none
  timeEl : Option (Option String) := none
  likeBtn : Option MetricBtn := none
  rtBtn : Option MetricBtn := none
  replyBtn : Option MetricBtn := none
  viewsLinkText : Option String := none
  replyDiv : Option (Option String) := none
deriving DecidableEq, Repr

/-- `extract_metric(element, pattern)` from `_parse_tweet_element`:
aria-label first (only when non-empty), then the text fallback through
`parse_count` (which may raise, propagated as `.error`). -/
def extract_metric (el : Option MetricBtn) (w : String) : Except Unit Int :=
  match el with
  | none => .ok 0
  | some b =>
    match (if b.ariaLabel ≠ "" then searchNumWord w b.ariaLabel.data else none) with
    | some n => .ok (n : Int)
    | none =>
      if b.text ≠ "" then
        match firstRunU b.text with
        | some tok => parse_count tok
        | none => .ok 0
      else .ok 0

/-- The raising part of `_parse_tweet_element`: timestamp (a `<time>`
without `datetime` raises `KeyError`), the three button metrics, and the
views link (`parse_count` may raise `OverflowError`). -/
def parseTweetAux (el : TweetElem) : Except Unit (Option String × Int × Int × Int × Int) := do
  let timestamp ← match el.timeEl with
    | some none => Except.error ()   -- time_el['datetime'] raises KeyError
    | some (some d) => Except.ok (some d)
    | none => Except.ok (none : Option String)
  let likes ← extract_metric el.likeBtn "like"
  let retweets ← extract_metric el.rtBtn "repost"
  let replies ← extract_metric el.replyBtn "replie"
  let views ← match el.viewsLinkText with
    | some vt =>
      match firstRunU vt with
      | some tok => parse_count tok
      | none => Except.ok (0 : Int)
    | none => Except.ok (0 : Int)
  return (timestamp, likes, retweets, replies, views)

/-- `TwitterScraper._parse_tweet_element`: builds a `Tweet` whose text is
the `tweetText` node's stripped text, or `""` when that node is absent
(media-only tweet; the source deliberately takes no text fallback).
`none` models the broad `except` catching an exception. -/
def parseTweetElement (el : TweetElem) (username : String) : Option Tweet :=
  match parseTweetAux el with
  | .error _ => none
  | .ok (timestamp, likes, retweets, replies, views) =>
    let (isReply, replyTo) : Bool × Option String :=
      match el.replyDiv with
      | some link => (true, link)
      | none => (false, none)
    some { text := el.tweetText.getD "", username := username, timestamp := timestamp,
           likes := likes, retweets := retweets, replies := replies,
           views := views, is_reply := isReply, reply_to := replyTo }

/-! ## The scroll/extract/converge loop of `scrape_tweets` -/

/-- Environment for one paginated scrape: whether `driver.get` succeeds,
the tweet elements parsed out of `page_source` at each read, and the
scroll heights returned by `execute_script`.  `.error` models an
exception raised by the corresponding driver call. -/
structure PageEnv (α : Type) where
  nav : Bool
  pages : Nat → Except Unit (List α)
  heights : Nat → Except Unit Int

/-- Loop state of `scrape_tweets`: collected tweets, the `seen_texts`
dedup set (a list queried by membership), `last_height`, and the
consecutive no-growth counter `scroll_attempts`. -/
structure TwState where
  tweets : List Tweet := []
  seen : List String := []
  lastHeight : Int := 0
  attempts : Nat := 0
deriving DecidableEq, Repr

/-- How one loop iteration of `scrape_tweets` treats one tweet element:
stop consuming once `max_tweets` is reached (the source `break`s, and the
guard stays true afterwards, so skipping is equivalent), parse, drop
fingerprint collisions on exact text, otherwise append and record the
text. -/
def tweetStep (username : String) (maxT : Nat) (st : TwState) (el : TweetElem) : TwState :=
  if maxT ≤ st.tweets.length then st
  else
    match parseTweetElement el username with
    | some t =>
      if t.text ∈ st.seen then st
      else { st with tweets := st.tweets ++ [t], seen := t.text :: st.seen }
    | none => st

/-- The inner `for tweet_el in tweet_elements` loop. -/
def mergeTweets (username : String) (maxT : Nat) (st : TwState) (els : List TweetElem) : TwState :=
  els.foldl (tweetStep username maxT) st

/-- End-of-iteration height bookkeeping: increment the no-growth counter
when the height is unchanged, reset it to zero otherwise; always store the
new height. -/
def advanceHeight (st : TwState) (h : Int) : TwState :=
  if h = st.lastHeight then { st with attempts := st.attempts + 1, lastHeight := h }
  else { st with attempts := 0, lastHeight := h }

/-- How the `while` loop of `scrape_tweets` exited. -/
inductive TwExit where
  | target   -- len(tweets) >= max_tweets
  | noGrowth -- scroll_attempts >= max_scroll_attempts
  | aborted  -- an exception reached the enclosing try (partial result returned)
deriving DecidableEq, Repr

/-- The `while len(tweets) < max_tweets and scroll_attempts < 10` loop.
`fuel` bounds the number of iterations modelled; `none` means the fuel ran
out while the loop would have continued (the Python loop is not bounded
when heights keep changing).  `i` indexes the successive driver reads. -/
def scrapeTweetsGo (env : PageEnv TweetElem) (username : String) (maxT : Nat) :
    Nat → Nat → TwState → Option (List Tweet × TwExit)
  | 0, _, st =>
    if maxT ≤ st.tweets.length then some (st.tweets, .target)
    else if 10 ≤ st.attempts then some (st.tweets, .noGrowth)
    else none
  | fuel + 1, i, st =>
    if maxT ≤ st.tweets.length then some (st.tweets, .target)
    else if 10 ≤ st.attempts then some (st.tweets, .noGrowth)
    else
      match env.pages i with
      | .error _ => some (st.tweets, .aborted)
      | .ok els =>
        let st1 := mergeTweets username maxT st els
        match env.heights (i + 1) with
        | .error _ => some (st1.tweets, .aborted)
        | .ok h => scrapeTweetsGo env username maxT fuel (i + 1) (advanceHeight st1 h)

/-- `TwitterScraper.scrape_tweets` with the exit reason exposed.  The
outer `try/except` returns the tweets collected so far on any exception:
a failed `driver.get` or initial height read yields `([], .aborted)`. -/
def scrapeTweetsFull (env : PageEnv TweetElem) (username : String) (maxT fuel : Nat) :
    Option (List Tweet × TwExit) :=
  if env.nav then
    match env.heights 0 with
    | .error _ => some ([], .aborted)
    | .ok h0 => scrapeTweetsGo env username maxT fuel 0 { lastHeight := h0 }
  else some ([], .aborted)

/-- `TwitterScraper.scrape_tweets` as its caller sees it: a list of
tweets (it never lets an exception escape). -/
def scrape_tweets (env : PageEnv TweetElem) (username : String) (maxT fuel : Nat) :
    Option (List Tweet) :=
  (scrapeTweetsFull env username maxT fuel).map (·.1)

/-! ## `scrape_following`: the connection-listing loop -/

/-- Query results on one `div[data-testid="UserCell"]`: the first link's
`href` (absent when `find` returns nothing), the first `div[dir=auto]`
text, and the first image `src`. -/
structure UserCell where
  linkHref : Option String := none
  nameDivText : Option String := none
  imgSrc : Option String := none
deriving DecidableEq, Repr

/-- Loop state of `scrape_following`. -/
structure FwState where
  profiles : List Profile := []
  seen : List String := []
  lastHeight : Int := 0
  attempts : Nat := 0
deriving DecidableEq, Repr

/-- One user cell of the inner loop: skip when `max_count` is reached
(the source `break`s; the guard stays true), skip cells without a link,
dedup on the slash-stripped handle, otherwise build the simplified
profile (zero counters; the bio computed in the source is never passed to
`Profile`). -/
def cellStep (maxC : Nat) (st : FwState) (cell : UserCell) : FwState :=
  if maxC ≤ st.profiles.length then st
  else
    match cell.linkHref with
    | none => st
    | some href =>
      let handle := pyStripSlashes href
      if handle ∈ st.seen then st
      else
        let name := cell.nameDivText.getD handle
        let p : Profile := { username := handle, full_name := some name,
                             profile_image_url := cell.imgSrc }
        { st with profiles := st.profiles ++ [p], seen := handle :: st.seen }

/-- The `for cell in user_cells` loop. -/
def mergeCells (maxC : Nat) (st : FwState) (cells : List UserCell) : FwState :=
  cells.foldl (cellStep maxC) st

/-- Height bookkeeping of `scrape_following` (same as `scrape_tweets`). -/
def advanceHeightFw (st : FwState) (h : Int) : FwState :=
  if h = st.lastHeight then { st with attempts := st.attempts + 1, lastHeight := h }
  else { st with attempts := 0, lastHeight := h }

/-- The `while len(profiles) < max_count and scroll_attempts < 10` loop
of `scrape_following`. -/
def scrapeFollowingGo (env : PageEnv UserCell) (maxC : Nat) :
    Nat → Nat → FwState → Option (List Profile × TwExit)
  | 0, _, st =>
    if maxC ≤ st.profiles.length then some (st.profiles, .target)
    else if 10 ≤ st.attempts then some (st.profiles, .noGrowth)
    else none
  | fuel + 1, i, st =>
    if maxC ≤ st.profiles.length then some (st.profiles, .target)
    else if 10 ≤ st.attempts then some (st.profiles, .noGrowth)
    else
      match env.pages i with
      | .error _ => some (st.profiles, .aborted)
      | .ok cells =>
        let st1 := mergeCells maxC st cells
        match env.heights (i + 1) with
        | .error _ => some (st1.profiles, .aborted)
        | .ok h => scrapeFollowingGo env maxC fuel (i + 1) (advanceHeightFw st1 h)

/-- `TwitterScraper.scrape_following`: like `scrape_tweets`, the outer
`try/except` returns the profiles collected so far on any exception. -/
def scrape_following (env : PageEnv UserCell) (maxC fuel : Nat) : Option (List Profile) :=
  (if env.nav then
    match env.heights 0 with
    | .error _ => some ([], TwExit.aborted)
    | .ok h0 => scrapeFollowingGo env maxC fuel 0 { lastHeight := h0 }
  else some ([], TwExit.aborted)).map (·.1)

/-! ## Profile extraction (`_extract_profile_data`, `scrape_profile`) -/

/-- Query results on a rendered profile page.
`userNameDiv = some none` is a `UserName` div without a string-span: the
chained `.get_text` then raises `AttributeError`, aborting the extraction
with the defaults collected so far.  `primaryColumn = some t` is the
primary column's first child div with text `t` (`some none`: column
present, no child div).  `countCandidates` are the strings returned by
`find_all(string=re.compile(r'\d+.*\s(posts|tweets)', re.IGNORECASE))`. -/
structure ProfilePage where
  userNameDiv : Option (Option String) := none
  userDescription : Option String := none
  verifiedIcon : Bool := false
  profileImages : List String := []
  bannerSrc : Option String := none
  userLocation : Option String := none
  userJoinDate : Option String := none
  primaryColumn : Option (Option String) := none
  fullText : String := ""
  countCandidates : List String := []
  followingLinkText : Option String := none
  verifiedFollowersLinkText : Option String := none
  followersLinkText : Option String := none
deriving DecidableEq, Repr

/-- The `profile_data` dict with its initial defaults. -/
structure ProfileData where
  full_name : Option String := none
  bio : Option String := none
  location : Option String := none
  website : Option String := none
  join_date : Option String := none
  followers_count : Int := 0
  following_count : Int := 0
  tweets_count : Int := 0
  is_verified : Bool := false
  profile_image_url : Option String := none
  banner_image_url : Option String := none
deriving DecidableEq, Repr

/-- Contiguous-sublist test on character lists. -/
def isInfixList (pat : List Char) : List Char → Bool
  | [] => pat.isEmpty
  | c :: r => pat.isPrefixOf (c :: r) || isInfixList pat r

/-- Substring test (`'200x200' in src`) at the character-list level. -/
def hasSubstr (s pat : String) : Bool :=
  isInfixList pat.data s.data

/-- Strategy 2 of the tweet-count extraction: first candidate string of
length < 20 containing a `[\d,.KMB]+` token sets the count and breaks; a
`parse_count` overflow aborts the whole extraction. -/
def tweetCountStrategy2 (cands : List String) (d : ProfileData) : Except ProfileData ProfileData :=
  match cands with
  | [] => .ok d
  | c :: rest =>
    if c.length < 20 then
      match firstRunU c with
      | some tok =>
        match parse_count tok with
        | .ok n => .ok { d with tweets_count := n }
        | .error _ => .error d
      | none => tweetCountStrategy2 rest d
    else tweetCountStrategy2 rest d

/-- `TwitterScraper._extract_profile_data`, step by step in source order.
The broad `except` around the body means a raise returns the dict as
filled so far; `Except ProfileData ProfileData` threads that partial
dict. -/
def extractProfileDataChain (pp : ProfilePage) : Except ProfileData ProfileData := do
  let d : ProfileData := {}
  -- Full name: name_tag.find('span', string=True).get_text(strip=True)
  let d ← match pp.userNameDiv with
    | none => Except.ok d
    | some none => Except.error d      -- AttributeError on None.get_text
    | some (some t) => Except.ok { d with full_name := some t }
  -- Bio
  let d := match pp.userDescription with
    | some b => { d with bio := some b }
    | none => d
  -- Verification
  let d := { d with is_verified := pp.verifiedIcon }
  -- Profile image: prefer a high-resolution size marker, else first match
  let d := match pp.profileImages.find? (fun src => hasSubstr src "200x200" || hasSubstr src "400x400") with
    | some src => { d with profile_image_url := some src }
    | none =>
      match pp.profileImages with
      | src :: _ => { d with profile_image_url := some src }
      | [] => d
  -- Banner
  let d := match pp.bannerSrc with
    | some src => { d with banner_image_url := some src }
    | none => d
  -- Location
  let d := match pp.userLocation with
    | some t => { d with location := some t }
    | none => d
  -- Join date
  let d := match pp.userJoinDate with
    | some t => { d with join_date := some t }
    | none => d
  -- Tweet count, strategy 1: regex over the header text (or first 500
  -- characters of the whole page text when the header is empty)
  let headerText := match pp.primaryColumn with
    | some (some t) => t
    | _ => ""
  let headerText := if headerText = "" then String.mk (pp.fullText.data.take 500) else headerText
  let d ← match searchCountWord headerText with
    | some tok =>
      match parse_count tok with
      | .ok n => Except.ok { d with tweets_count := n }
      | .error _ => Except.error d
    | none => Except.ok d
  -- Tweet count, strategy 2
  let d ← if d.tweets_count = 0 then tweetCountStrategy2 pp.countCandidates d else Except.ok d
  -- Following count
  let d ← match pp.followingLinkText with
    | some txt =>
      match leadRunU txt with
      | some tok =>
        match parse_count tok with
        | .ok n => Except.ok { d with following_count := n }
        | .error _ => Except.error d
      | none => Except.ok d
    | none => Except.ok d
  -- Followers count (verified_followers link, else followers link)
  let d ← match pp.verifiedFollowersLinkText.orElse (fun _ => pp.followersLinkText) with
    | some txt =>
      match leadRunU txt with
      | some tok =>
        match parse_count tok with
        | .ok n => Except.ok { d with followers_count := n }
        | .error _ => Except.error d
      | none => Except.ok d
    | none => Except.ok d
  return d

/-- `_extract_profile_data`: the `try/except` returns the dict as filled
so far when a step raises. -/
def extractProfileData (pp : ProfilePage) : ProfileData :=
  match extractProfileDataChain pp with
  | .ok d => d
  | .error d => d

/-- The `Profile(...)` construction at the end of `scrape_profile`:
`username` is the requested handle, `description` aliases the bio, and
`website` is never extracted. -/
def profileOfData (username : String) (d : ProfileData) : Profile :=
  { username := username, full_name := d.full_name, bio := d.bio,
    description := d.bio, location := d.location, website := d.website,
    join_date := d.join_date, followers_count := d.followers_count,
    following_count := d.following_count, tweets_count := d.tweets_count,
    is_verified := d.is_verified, profile_image_url := d.profile_image_url,
    banner_image_url := d.banner_image_url }

/-! ## The discovery job (src/main.py, `run_discovery_job`) -/

/-- Environment of one discovery job run: whether the
`TwitterScraper(...)` construction and the final `driver.quit()` succeed,
the per-username profile page (`none` models an exception while
navigating/rendering, which `scrape_profile` turns into `None`), and the
per-username environments of the two paginated scrapes. -/
structure DiscoveryEnv where
  initOk : Bool := true
  closeOk : Bool := true
  profilePage : String → Option ProfilePage
  tweetsEnv : String → PageEnv TweetElem
  followingEnv : String → PageEnv UserCell

/-- `TwitterScraper.scrape_profile`: `None` exactly when an exception was
caught; otherwise a `Profile` built from the extracted dict (a `Profile`
object is always truthy). -/
def scrape_profile (env : DiscoveryEnv) (username : String) : Option Profile :=
  (env.profilePage username).map (fun pp => profileOfData username (extractProfileData pp))

/-- The JSON payload built for the sink
(`{"username": ..., "tweets": [...], "user_id": ...}`). -/
structure SinkPayload where
  username : String
  tweets : List Tweet
  user_id : String
deriving DecidableEq, Repr

/-- Python truthiness of an `Optional[str]`. -/
def pyTruthy : Option String → Bool
  | none => false
  | some s => s ≠ ""

/-- `src/main.py` contains no `import requests`, so the name lookup in
`resp = requests.post(callback_url, json=payload)` inside
`run_discovery_job` raises `NameError` (caught by the surrounding
`except Exception as te`).  This flag records that fact: the sink POST in
the discovery job can never execute. -/
def mainHasRequestsImport : Bool := false

/-- Orchestrator-local state: `discovered_profiles`, `seen_usernames`
(a set, queried by membership), the sink payloads constructed in phase 1
(built before the failing `requests.post`), and the payloads actually
delivered to the sink. -/
structure DiscState where
  discovered : List Profile := []
  seen : List String := []
  built : List SinkPayload := []
  delivered : List SinkPayload := []
deriving Repr

/-- The sink block of phase 1 for one seed with a non-empty tweet list:
the payload dict is constructed, then `resp = requests.post(...)` is
evaluated — raising `NameError` because `src/main.py` never imports
`requests` — and the `except Exception as te` clause swallows it, so the
payload is recorded as built but never delivered. -/
def phase1SinkAttempt (st : DiscState) (u : String) (ts : List Tweet)
    (userId : Option String) : DiscState :=
  let payload : SinkPayload := { username := u, tweets := ts, user_id := userId.getD "" }
  let st1 := { st with built := st.built ++ [payload] }
  if mainHasRequestsImport then { st1 with delivered := st1.delivered ++ [payload] } else st1

/-- Phase 1 of `run_discovery_job`: resolve each seed in order, skipping
duplicates; on success append the profile and record the username; when a
sink is configured, scrape up to 10 tweets and attempt the callback POST.
`none` propagates fuel exhaustion of the inner scrape (the Python loop
not terminating). -/
def phase1 (env : DiscoveryEnv) (userId callbackUrl : Option String) (fuel : Nat) :
    List String → DiscState → Option DiscState
  | [], st => some st
  | u :: rest, st =>
    if u ∈ st.seen then phase1 env userId callbackUrl fuel rest st
    else
      match scrape_profile env u with
      | none => phase1 env userId callbackUrl fuel rest st
      | some p =>
        let st1 := { st with discovered := st.discovered ++ [p], seen := p.username :: st.seen }
        if pyTruthy userId && pyTruthy callbackUrl then
          match scrape_tweets (env.tweetsEnv u) u 10 fuel with
          | none => none
          | some ts =>
            if ts ≠ [] then
              phase1 env userId callbackUrl fuel rest (phase1SinkAttempt st1 u ts userId)
            else phase1 env userId callbackUrl fuel rest st1
        else phase1 env userId callbackUrl fuel rest st1

/-- The inner promotion loop of phase 2 over one seed's connection stubs:
promote unseen stubs while the global total is under 25, counting
successes, and `break` once the per-seed counter reaches 4 (the source
checks the break after each guarded iteration, on success and on
failure). -/
def promoteStubs (env : DiscoveryEnv) : List Profile → Nat → DiscState → DiscState
  | [], _, st => st
  | p :: rest, count, st =>
    if p.username ∉ st.seen ∧ st.discovered.length < 25 then
      match scrape_profile env p.username with
      | some fullP =>
        let st := { st with discovered := st.discovered ++ [fullP],
                            seen := fullP.username :: st.seen }
        let count := count + 1
        if 4 ≤ count then st else promoteStubs env rest count st
      | none =>
        if 4 ≤ count then st else promoteStubs env rest count st
    else promoteStubs env rest count st

/-- Phase 2 of `run_discovery_job`: for each seed in order, stop when the
global total reaches 25; otherwise fetch up to 10 connection stubs and
promote them.  A failing `scrape_following` is caught inside that method
and returns a partial (possibly empty) list, so it never aborts the
phase. -/
def phase2 (env : DiscoveryEnv) (fuel : Nat) : List String → DiscState → Option DiscState
  | [], st => some st
  | u :: rest, st =>
    if 25 ≤ st.discovered.length then some st
    else
      match scrape_following (env.followingEnv u) 10 fuel with
      | none => none
      | some following => phase2 env fuel rest (promoteStubs env following 0 st)

/-- Both phases of the orchestrator, from the empty state. -/
def discoveryCollect (env : DiscoveryEnv) (usernames : List String)
    (userId callbackUrl : Option String) (fuel : Nat) : Option DiscState :=
  match phase1 env userId callbackUrl fuel usernames {} with
  | none => none
  | some st => phase2 env fuel usernames st

/-- The descending-followers comparison used by
`discovered_profiles.sort(key=lambda x: x.followers_count, reverse=True)`. -/
def byFollowersDesc (a b : Profile) : Prop := b.followers_count ≤ a.followers_count

instance : DecidableRel byFollowersDesc := fun a b =>
  inferInstanceAs (Decidable (b.followers_count ≤ a.followers_count))

/-- Python's `list.sort(key=..., reverse=True)` is the stable descending
sort; stable sorts agree extensionally, so it is embedded as Mathlib's
insertion sort with the flipped comparison. -/
def pySortDesc (l : List Profile) : List Profile :=
  List.insertionSort byFollowersDesc l

/-! ## Job records and the handlers -/

/-- The `status` strings of a job record. -/
inductive JobStatus where
  | pending
  | running
  | completed
  | failed
deriving DecidableEq, Repr

/-- A record of the in-memory `jobs` dict.  Timestamps carry no claim
content and are modelled as presence flags; intermediate `progress`
strings are informational only and elided (the field keeps the last
modelled write). -/
structure JobRecord where
  id : String
  status : JobStatus
  progress : String
  usernames : List String
  result : Option (List Profile) := none
  error : Option String := none
  createdAt : Bool := true
  startedAt : Bool := false
  completedAt : Bool := false
deriving DecidableEq, Repr

/-- The `/discover` handler `start_discovery_job`: reject an empty
username list with HTTP 400 before creating anything (`none`), otherwise
store a `pending` record. -/
def startDiscoveryJob (jobId : String) (usernames : List String) : Option JobRecord :=
  if usernames = [] then none
  else some { id := jobId, status := .pending,
              progress := "Job created, starting soon...",
              usernames := usernames }

/-- The `/sync-tweets` handler `start_tweet_sync_job`: same creation
shape (the record also carries `type: sync_tweets`, which no claim
touches). -/
def startTweetSyncJob (jobId : String) (usernames : List String) : Option JobRecord :=
  if usernames = [] then none
  else some { id := jobId, status := .pending,
              progress := "Job created, starting soon...",
              usernames := usernames }

/-- `run_discovery_job`, acting on the job's record.  Returns the final
record, the chronological list of writes to its `status` field, and the
sink payloads (built and delivered); `none` models a non-terminating run
(fuel exhaustion inside a scrape loop).  The status is set to `running`
before the scraper is constructed; a scraper-construction or
`driver.quit()` exception reaches the outer `except` and flips the job to
`failed`; otherwise the sorted, truncated result is stored and the job
completes. -/
def runDiscoveryJob (env : DiscoveryEnv) (rec : JobRecord)
    (usernames : List String) (userId callbackUrl : Option String) (fuel : Nat) :
    Option (JobRecord × List JobStatus × DiscState) :=
  let rec1 := { rec with status := JobStatus.running, startedAt := true }
  if env.initOk = false then
    some ({ rec1 with status := .failed, error := some "scraper init failed",
                      completedAt := true },
          [.running, .failed], {})
  else
    match discoveryCollect env usernames userId callbackUrl fuel with
    | none => none
    | some st =>
      if env.closeOk = false then
        some ({ rec1 with status := .failed, error := some "driver.quit failed",
                          completedAt := true },
              [.running, .failed], st)
      else
        let finalProfiles := (pySortDesc st.discovered).take 25
        some ({ rec1 with status := .completed, result := some finalProfiles,
                          progress := "Completed",
                          completedAt := true },
              [.running, .completed], st)

/-- The `/jobs/{job_id}` handler: a pure read of the store.  `result` is
surfaced only when the status is `completed`. -/
def getJobStatus (store : List (String × JobRecord)) (jobId : String) :
    Option (JobStatus × Option (List Profile) × Option String) :=
  match store.lookup jobId with
  | none => none
  | some rec =>
    some (rec.status,
          (if rec.status = .completed then rec.result else none),
          rec.error)

/-! ## The tweet-sync job (src/jobs/tweet_sync.py) -/

/-- Environment of a sync job: the per-username tweet-scrape environments
and the sink (`requests.post` is imported in `jobs/tweet_sync.py`; `none`
models a transport exception, otherwise the HTTP status code). -/
structure SyncEnv where
  tweetsEnv : String → PageEnv TweetElem
  sink : String → SinkPayload → Option Int

/-- `sync_influencer_tweets`: scrape up to 20 tweets, catching any
exception into `[]` (the inner scrape already catches its own). -/
def syncInfluencerTweets (env : SyncEnv) (username : String) (fuel : Nat) :
    Option (List Tweet) :=
  scrape_tweets (env.tweetsEnv username) username 20 fuel

/-- The per-username loop body of `run_tweet_sync_job`, accumulating the
delivered payloads and the saved-tweet total. -/
def syncLoop (env : SyncEnv) (callbackUrl userId : String) (fuel : Nat) :
    List String → List SinkPayload × Nat → Option (List SinkPayload × Nat)
  | [], acc => some acc
  | u :: rest, acc =>
    match syncInfluencerTweets env u fuel with
    | none => none
    | some ts =>
      if ts ≠ [] then
        let payload : SinkPayload := { username := u, tweets := ts, user_id := userId }
        match env.sink callbackUrl payload with
        | some 200 => syncLoop env callbackUrl userId fuel rest
            (acc.1 ++ [payload], acc.2 + ts.length)
        | _ => syncLoop env callbackUrl userId fuel rest acc
      else syncLoop env callbackUrl userId fuel rest acc

/-- `run_tweet_sync_job` acting on the whole `jobs` store.  The function
never references the store: it is returned unchanged, and the list of
writes to the job's `status` field is empty — the record created as
`pending` by `/sync-tweets` keeps that status forever. -/
def runTweetSyncJob (env : SyncEnv) (store : List (String × JobRecord))
    (usernames : List String) (callbackUrl userId : String) (fuel : Nat) :
    Option (List (String × JobRecord) × List JobStatus × List SinkPayload × Nat) :=
  match syncLoop env callbackUrl userId fuel usernames ([], 0) with
  | none => none
  | some acc => some (store, [], acc.1, acc.2)

/-! # Theorems for the claims -/

/-! ## C2: `parse_count` -/

/-- The normalised numeric body that `parse_count` hands to `float(...)`:
input stripped and upper-cased, suffix peeled, commas removed. -/
def pcBody (s : String) : String := removeCommas (pcSuffix (pyUpper (pyStrip s))).2

theorem parse_count_error_iff (s : String) :
    parse_count s = .error () ↔ s ≠ "" ∧ ∃ b, pyFloat (pcBody s) = some (.inf b) := by
  by_cases hs : s = ""
  · subst hs; simp [parse_count]
  · unfold parse_count pcBody
    rw [if_neg hs]
    cases hpf : pyFloat (removeCommas (pcSuffix (pyUpper (pyStrip s))).2) with
    | none => simp [hs]
    | some pf =>
      cases pf with
      | finite pos mant exp => simp [hs]
      | inf b => simp [hs]
      | nan => simp [hs]

/-- C2 counterexample.  The claim calls `parse_count` total; in the
source, `int(float("inf") * 1)` raises `OverflowError`, which the
`except ValueError` clause does not catch, so `parse_count("inf")` raises
instead of returning an integer (in particular it does not return 0). -/
theorem C2_counterexample_inf_raises :
    parse_count "inf" = .error () ∧ ∀ n : Int, parse_count "inf" ≠ .ok n := by
  refine ⟨by decide, ?_⟩
  intro n h
  rw [show parse_count "inf" = .error () from by decide] at h
  cases h

/-- C2 (amended).  `parse_count` strips thousands separators, applies the
case-insensitive suffixes K/M/B as multipliers 10^3/10^6/10^9, returns 0
on unparsable input, and maps the six quoted examples exactly; it raises
an uncaught `OverflowError` (instead of being total) precisely on inputs
whose normalised numeric body parses as an infinite float, such as
`"inf"` or `"9e999"`. -/
theorem C2_parse_count_behaviour :
    parse_count "1.2K" = .ok 1200 ∧ parse_count "2,500" = .ok 2500 ∧
    parse_count "3M" = .ok 3000000 ∧ parse_count "4B" = .ok 4000000000 ∧
    parse_count "" = .ok 0 ∧ parse_count "abc" = .ok 0 ∧
    parse_count "1.2k" = .ok 1200 ∧ parse_count "3m" = .ok 3000000 ∧
    parse_count "4b" = .ok 4000000000 ∧
    ∀ s : String, parse_count s = .error () ↔
      s ≠ "" ∧ ∃ b, pyFloat (pcBody s) = some (.inf b) :=
  ⟨by decide, by decide, by decide, by decide, by decide, by decide,
   by decide, by decide, by decide, parse_count_error_iff⟩

/-- Witness for C2: the behaviour theorem applied at `"9e999"`, whose
body parses as an infinite float, and the error characterisation read
back concretely. -/
theorem C2_witness :
    parse_count "9e999" = .error () :=
  (C2_parse_count_behaviour.2.2.2.2.2.2.2.2.2 "9e999").mpr
    ⟨by decide, true, by decide⟩

/-! ## C6: the per-seed expansion quota -/

theorem promoteStubs_length_le (env : DiscoveryEnv) :
    ∀ (stubs : List Profile) (count : Nat) (st : DiscState), count ≤ 3 →
      (promoteStubs env stubs count st).discovered.length ≤
        st.discovered.length + (4 - count)
  | [], count, st, _ => by simp [promoteStubs]
  | p :: rest, count, st, hc => by
    unfold promoteStubs
    split
    · cases hsp : scrape_profile env p.username with
      | some fullP =>
        simp only [hsp]
        by_cases h4 : 4 ≤ count + 1
        · rw [if_pos h4]
          simp only [List.length_append, List.length_cons, List.length_nil]
          omega
        · rw [if_neg h4]
          have := promoteStubs_length_le env rest (count + 1)
            { st with discovered := st.discovered ++ [fullP],
                      seen := fullP.username :: st.seen } (by omega)
          simp only [List.length_append, List.length_cons, List.length_nil] at this ⊢
          omega
      | none =>
        simp only [hsp]
        rw [if_neg (by omega : ¬ 4 ≤ count)]
        have := promoteStubs_length_le env rest count st hc
        omega
    · have := promoteStubs_length_le env rest count st hc
      omega

/-- C6.  Processing one seed's connection stubs in phase 2 adds at most 4
profiles to `discovered` — unconditionally, hence in particular in every
run that is not cut short by the global cap (the per-seed counter is
incremented on each successful promotion and the stub loop breaks as soon
as it reaches 4). -/
theorem C6_per_seed_quota (env : DiscoveryEnv) (stubs : List Profile) (st : DiscState) :
    (promoteStubs env stubs 0 st).discovered.length ≤ st.discovered.length + 4 :=
  promoteStubs_length_le env stubs 0 st (by omega)

/-- Witness for C6: the quota bound evaluated on a concrete stub list
through a concrete environment (four of the five stubs get promoted). -/
def envC6 : DiscoveryEnv :=
  { profilePage := fun _ => some {},
    tweetsEnv := fun _ => { nav := false, pages := fun _ => .ok [], heights := fun _ => .ok 0 },
    followingEnv := fun _ => { nav := false, pages := fun _ => .ok [], heights := fun _ => .ok 0 } }

theorem C6_witness :
    (promoteStubs envC6
      [{ username := "a" }, { username := "b" }, { username := "c" },
       { username := "d" }, { username := "e" }] 0 {}).discovered.length ≤ 0 + 4 := by
  have h := C6_per_seed_quota envC6
    [{ username := "a" }, { username := "b" }, { username := "c" },
     { username := "d" }, { username := "e" }] {}
  simpa using h

/-! ## C5: the exact-text dedup invariant of `scrape_tweets` -/

/-- The loop invariant: retained texts are pairwise distinct and every
retained text is recorded in `seen_texts`. -/
def twInv (st : TwState) : Prop :=
  (st.tweets.map Tweet.text).Nodup ∧ ∀ t ∈ st.tweets, t.text ∈ st.seen

theorem tweetStep_inv (u : String) (m : Nat) (st : TwState) (el : TweetElem)
    (h : twInv st) : twInv (tweetStep u m st el) := by
  unfold tweetStep
  split
  · exact h
  · cases hp : parseTweetElement el u with
    | none => exact h
    | some t =>
      dsimp only
      by_cases hmem : t.text ∈ st.seen
      · rw [if_pos hmem]; exact h
      · rw [if_neg hmem]
        obtain ⟨hnd, hsub⟩ := h
        refine ⟨?_, ?_⟩
        · rw [List.map_append]
          refine List.Nodup.append hnd (List.nodup_singleton _) ?_
          intro a ha hb
          rcases List.mem_map.mp ha with ⟨t', ht', rfl⟩
          have hb' : t'.text = t.text := by simpa using hb
          exact hmem (hb' ▸ hsub t' ht')
        · intro t' ht'
          rcases List.mem_append.mp ht' with h1 | h2
          · exact List.mem_cons_of_mem _ (hsub t' h1)
          · rcases List.mem_singleton.mp h2 with rfl
            exact List.mem_cons_self _ _

theorem mergeTweets_inv (u : String) (m : Nat) :
    ∀ (els : List TweetElem) (st : TwState), twInv st → twInv (mergeTweets u m st els)
  | [], _, h => h
  | el :: rest, st, h =>
    mergeTweets_inv u m rest (tweetStep u m st el) (tweetStep_inv u m st el h)

theorem twInv_advanceHeight (st : TwState) (h : Int) :
    twInv (advanceHeight st h) ↔ twInv st := by
  unfold advanceHeight
  split <;> exact Iff.rfl

theorem scrapeTweetsGo_nodup (env : PageEnv TweetElem) (u : String) (m : Nat) :
    ∀ (fuel i : Nat) (st : TwState) (ts : List Tweet) (e : TwExit), twInv st →
      scrapeTweetsGo env u m fuel i st = some (ts, e) → (ts.map Tweet.text).Nodup := by
  intro fuel
  induction fuel with
  | zero =>
    intro i st ts e hinv heq
    unfold scrapeTweetsGo at heq
    split at heq
    · cases heq; exact hinv.1
    · split at heq
      · cases heq; exact hinv.1
      · cases heq
  | succ f ih =>
    intro i st ts e hinv heq
    unfold scrapeTweetsGo at heq
    split at heq
    · cases heq; exact hinv.1
    · split at heq
      · cases heq; exact hinv.1
      · split at heq
        · cases heq; exact hinv.1
        · rename_i els hpages
          split at heq
          · cases heq
            exact (mergeTweets_inv u m els st hinv).1
          · exact ih (i + 1) _ ts e
              ((twInv_advanceHeight _ _).mpr (mergeTweets_inv u m els st hinv)) heq

/-- C5.  In every run of the post collector, no two returned tweets share
the same text: dedup is keyed on the exact text within the run. -/
theorem C5_dedup_by_text (env : PageEnv TweetElem) (u : String) (m fuel : Nat)
    (ts : List Tweet) (h : scrape_tweets env u m fuel = some ts) :
    (ts.map Tweet.text).Nodup := by
  unfold scrape_tweets scrapeTweetsFull at h
  by_cases hnav : env.nav
  · rw [if_pos hnav] at h
    cases hh : env.heights 0 with
    | error e =>
      rw [hh] at h
      cases h; exact List.nodup_nil
    | ok h0 =>
      rw [hh] at h
      rcases Option.map_eq_some'.mp h with ⟨⟨ts', e⟩, hgo, rfl⟩
      refine scrapeTweetsGo_nodup env u m fuel 0 _ ts' e ⟨?_, ?_⟩ hgo
      · simp
      · intro t ht; cases ht
  · rw [if_neg hnav] at h
    cases h; exact List.nodup_nil

/-- Concrete run for the C5 witness: a page with two identically-texted
tweets and a third distinct one. -/
def envC5 : PageEnv TweetElem :=
  { nav := true,
    pages := fun _ => .ok [{ tweetText := some "dup" }, { tweetText := some "dup" },
                           { tweetText := some "x" }],
    heights := fun _ => .ok 0 }

theorem C5_witness :
    scrape_tweets envC5 "alice" 2 2 =
      some [{ text := "dup", username := "alice" }, { text := "x", username := "alice" }] ∧
    (([{ text := "dup", username := "alice" },
       { text := "x", username := "alice" }] : List Tweet).map Tweet.text).Nodup :=
  ⟨by decide, C5_dedup_by_text envC5 "alice" 2 2 _ (by decide)⟩

/-! ## C10: at most one retained empty-text tweet -/

theorem nodup_text_countP (ts : List Tweet)
    (h : (ts.map Tweet.text).Nodup) :
    ts.countP (fun t => decide (t.text = "")) ≤ 1 := by
  induction ts with
  | nil => simp
  | cons t rest ih =>
    rw [List.map_cons] at h
    rcases List.nodup_cons.mp h with ⟨hnotin, hrest⟩
    rw [List.countP_cons]
    by_cases ht : t.text = ""
    · have hzero : rest.countP (fun t => decide (t.text = "")) = 0 := by
        rw [List.countP_eq_zero]
        intro t' ht'
        simp only [decide_eq_true_eq]
        intro he
        exact hnotin (by rw [← ht, ← he] at *; exact List.mem_map_of_mem Tweet.text ht')
      simp [ht, hzero]
    · have hf : (decide (t.text = "")) = false := by simpa using ht
      simpa [hf] using ih hrest

/-- C10.  (i) A tweet element with no `tweetText` node parses to a tweet
with text `""` rather than being skipped; (ii) in any run, at most one
retained tweet has empty text; (iii) an element whose parsed text is
already fingerprinted is dropped, leaving the state unchanged. -/
theorem C10_empty_text_tweets :
    (∀ (el : TweetElem) (u : String) (t : Tweet),
        el.tweetText = none → parseTweetElement el u = some t → t.text = "")
    ∧ (∀ (env : PageEnv TweetElem) (u : String) (m fuel : Nat) (ts : List Tweet),
        scrape_tweets env u m fuel = some ts →
        ts.countP (fun t => decide (t.text = "")) ≤ 1)
    ∧ (∀ (u : String) (m : Nat) (st : TwState) (el : TweetElem) (t : Tweet),
        parseTweetElement el u = some t → t.text ∈ st.seen →
        tweetStep u m st el = st) := by
  refine ⟨?_, ?_, ?_⟩
  · intro el u t hnone hp
    unfold parseTweetElement at hp
    cases haux : parseTweetAux el with
    | error e => rw [haux] at hp; cases hp
    | ok v =>
      rw [haux] at hp
      obtain ⟨ts', l, r, rp, vw⟩ := v
      simp only [Option.some.injEq] at hp
      rw [← hp]
      simp [hnone]
  · intro env u m fuel ts h
    exact nodup_text_countP ts (C5_dedup_by_text env u m fuel ts h)
  · intro u m st el t hp hmem
    unfold tweetStep
    split
    · rfl
    · rw [hp]
      dsimp only
      rw [if_pos hmem]

/-- Concrete run for the C10 witness: two media-only elements (no
`tweetText`), of which exactly the first is retained with text `""`. -/
def envC10 : PageEnv TweetElem :=
  { nav := true,
    pages := fun _ => .ok [{}, {}],
    heights := fun _ => .ok 0 }

theorem C10_witness :
    ({ text := "", username := "u" } : Tweet).text = "" ∧
    ([({ text := "", username := "u" } : Tweet)].countP (fun t => decide (t.text = "")) ≤ 1) :=
  ⟨C10_empty_text_tweets.1 {} "u" _ rfl (by decide),
   C10_empty_text_tweets.2.1 envC10 "u" 5 12 _ (by decide)⟩

/-! ## C4: the finalised result is the stable descending sort, truncated -/

instance : IsTotal Profile byFollowersDesc :=
  ⟨fun a b => le_total b.followers_count a.followers_count⟩

instance : IsTrans Profile byFollowersDesc :=
  ⟨fun _ _ _ hab hbc => le_trans hbc hab⟩

theorem pySortDesc_sorted (l : List Profile) : List.Sorted byFollowersDesc (pySortDesc l) :=
  List.sorted_insertionSort byFollowersDesc l

theorem pySortDesc_perm (l : List Profile) : List.Perm (pySortDesc l) l :=
  List.perm_insertionSort byFollowersDesc l

theorem filter_orderedInsert_eq (p : Profile) (k : Int) (hk : p.followers_count = k) :
    ∀ l : List Profile,
      (List.orderedInsert byFollowersDesc p l).filter (fun q => decide (q.followers_count = k)) =
        p :: l.filter (fun q => decide (q.followers_count = k))
  | [] => by simp [hk]
  | b :: l => by
    by_cases h : byFollowersDesc p b
    · rw [List.orderedInsert_of_le _ _ h]
      simp [hk]
    · have hbk : b.followers_count ≠ k := by
        unfold byFollowersDesc at h
        intro hb
        exact h (by omega)
      simp only [List.orderedInsert, if_neg h]
      rw [List.filter_cons_of_neg (by simpa using hbk),
          List.filter_cons_of_neg (by simpa using hbk)]
      exact filter_orderedInsert_eq p k hk l

theorem filter_orderedInsert_ne (p : Profile) (k : Int) (hk : p.followers_count ≠ k) :
    ∀ l : List Profile,
      (List.orderedInsert byFollowersDesc p l).filter (fun q => decide (q.followers_count = k)) =
        l.filter (fun q => decide (q.followers_count = k))
  | [] => by simp [hk]
  | b :: l => by
    by_cases h : byFollowersDesc p b
    · rw [List.orderedInsert_of_le _ _ h]
      rw [List.filter_cons_of_neg (by simpa using hk)]
    · simp only [List.orderedInsert, if_neg h]
      by_cases hb : b.followers_count = k
      · rw [List.filter_cons_of_pos (by simpa using hb),
            List.filter_cons_of_pos (by simpa using hb),
            filter_orderedInsert_ne p k hk l]
      · rw [List.filter_cons_of_neg (by simpa using hb),
            List.filter_cons_of_neg (by simpa using hb),
            filter_orderedInsert_ne p k hk l]

/-- Stability of the embedded sort: for every key value, the sorted list
keeps the original relative order (hence the original list) of the
profiles carrying that follower count. -/
theorem pySortDesc_stable (k : Int) :
    ∀ l : List Profile,
      (pySortDesc l).filter (fun q => decide (q.followers_count = k)) =
        l.filter (fun q => decide (q.followers_count = k))
  | [] => rfl
  | p :: l => by
    show (List.orderedInsert byFollowersDesc p (pySortDesc l)).filter _ = _
    by_cases hk : p.followers_count = k
    · rw [filter_orderedInsert_eq p k hk, pySortDesc_stable k l,
          List.filter_cons_of_pos (by simpa using hk)]
    · rw [filter_orderedInsert_ne p k hk, pySortDesc_stable k l,
          List.filter_cons_of_neg (by simpa using hk)]

/-- C4.  Every discovery run that terminates with status `completed`
stores exactly the stable descending sort (by follower count) of the
discovered profiles, truncated to the first 25; the stored list is sorted
non-increasingly, has length at most 25, and the sort is a stable
permutation of the discovered list. -/
theorem C4_ranked_truncated_result (env : DiscoveryEnv) (usernames : List String)
    (userId callbackUrl : Option String) (fuel : Nat) (rec : JobRecord)
    (out : JobRecord × List JobStatus × DiscState)
    (hrun : runDiscoveryJob env rec usernames userId callbackUrl fuel = some out)
    (hcomp : out.1.status = .completed) :
    ∃ ds, discoveryCollect env usernames userId callbackUrl fuel = some ds ∧
      out.1.result = some ((pySortDesc ds.discovered).take 25) ∧
      ((pySortDesc ds.discovered).take 25).length ≤ 25 ∧
      List.Sorted byFollowersDesc ((pySortDesc ds.discovered).take 25) ∧
      List.Perm (pySortDesc ds.discovered) ds.discovered ∧
      (∀ k : Int,
        (pySortDesc ds.discovered).filter (fun q => decide (q.followers_count = k)) =
          ds.discovered.filter (fun q => decide (q.followers_count = k))) := by
  unfold runDiscoveryJob at hrun
  by_cases hinit : env.initOk = false
  · rw [if_pos hinit] at hrun
    cases hrun
    cases hcomp
  · rw [if_neg hinit] at hrun
    cases hds : discoveryCollect env usernames userId callbackUrl fuel with
    | none => rw [hds] at hrun; cases hrun
    | some ds =>
      rw [hds] at hrun
      dsimp only at hrun
      by_cases hclose : env.closeOk = false
      · rw [if_pos hclose] at hrun
        cases hrun
        simp at hcomp
      · rw [if_neg hclose] at hrun
        cases hrun
        refine ⟨ds, rfl, rfl, List.length_take_le _ _, ?_, pySortDesc_perm _,
          fun k => pySortDesc_stable k ds.discovered⟩
        exact List.Pairwise.sublist (List.take_sublist _ _) (pySortDesc_sorted ds.discovered)

/-- Environment for the C4 witness: one seed resolving to a bare profile,
no expansion. -/
def envC4 : DiscoveryEnv :=
  { profilePage := fun _ => some {},
    tweetsEnv := fun _ => { nav := false, pages := fun _ => .ok [], heights := fun _ => .ok 0 },
    followingEnv := fun _ => { nav := false, pages := fun _ => .ok [], heights := fun _ => .ok 0 } }

/-- The pending record and completed run used by the C4 witness. -/
def recC4 : JobRecord :=
  { id := "j", status := .pending, progress := "Job created, starting soon...",
    usernames := ["a"] }

def outC4 : JobRecord × List JobStatus × DiscState :=
  (runDiscoveryJob envC4 recC4 ["a"] none none 1).get (by decide)

theorem C4_witness :
    ∃ ds, discoveryCollect envC4 ["a"] none none 1 = some ds ∧
      outC4.1.result = some ((pySortDesc ds.discovered).take 25) ∧
      ((pySortDesc ds.discovered).take 25).length ≤ 25 := by
  rcases C4_ranked_truncated_result envC4 ["a"] none none 1 recC4 outC4
      (Option.some_get _).symm (by decide) with ⟨ds, hds, hres, hlen, -, -, -⟩
  exact ⟨ds, hds, hres, hlen⟩

/-! ## C8: convergence detection terminates with a partial result -/

theorem tweetStep_frame (u : String) (m : Nat) (st : TwState) (el : TweetElem) :
    (tweetStep u m st el).lastHeight = st.lastHeight ∧
    (tweetStep u m st el).attempts = st.attempts ∧
    st.tweets <+: (tweetStep u m st el).tweets := by
  unfold tweetStep
  split
  · exact ⟨rfl, rfl, List.prefix_refl _⟩
  · cases parseTweetElement el u with
    | none => exact ⟨rfl, rfl, List.prefix_refl _⟩
    | some t =>
      dsimp only
      split
      · exact ⟨rfl, rfl, List.prefix_refl _⟩
      · exact ⟨rfl, rfl, List.prefix_append _ _⟩

theorem mergeTweets_frame (u : String) (m : Nat) :
    ∀ (els : List TweetElem) (st : TwState),
      (mergeTweets u m st els).lastHeight = st.lastHeight ∧
      (mergeTweets u m st els).attempts = st.attempts ∧
      st.tweets <+: (mergeTweets u m st els).tweets
  | [], st => ⟨rfl, rfl, List.prefix_refl _⟩
  | el :: rest, st => by
    have h1 := tweetStep_frame u m st el
    have h2 := mergeTweets_frame u m rest (tweetStep u m st el)
    exact ⟨h2.1.trans h1.1, h2.2.1.trans h1.2.1, h1.2.2.trans h2.2.2⟩

theorem scrapeTweetsGo_exits (env : PageEnv TweetElem) (u : String) (m : Nat)
    (fuel i : Nat) (st : TwState) (h10 : 10 ≤ st.attempts) :
    ∃ ts e, scrapeTweetsGo env u m fuel i st = some (ts, e) ∧ e ≠ TwExit.aborted ∧
      st.tweets <+: ts := by
  cases fuel with
  | zero =>
    by_cases hl : m ≤ st.tweets.length
    · refine ⟨st.tweets, .target, ?_, by decide, List.prefix_refl _⟩
      unfold scrapeTweetsGo
      rw [if_pos hl]
    · refine ⟨st.tweets, .noGrowth, ?_, by decide, List.prefix_refl _⟩
      unfold scrapeTweetsGo
      rw [if_neg hl, if_pos h10]
  | succ f =>
    by_cases hl : m ≤ st.tweets.length
    · refine ⟨st.tweets, .target, ?_, by decide, List.prefix_refl _⟩
      unfold scrapeTweetsGo
      rw [if_pos hl]
    · refine ⟨st.tweets, .noGrowth, ?_, by decide, List.prefix_refl _⟩
      unfold scrapeTweetsGo
      rw [if_neg hl, if_pos h10]

theorem scrapeTweetsGo_noGrowth (env : PageEnv TweetElem) (u : String) (m : Nat) :
    ∀ (k fuel i : Nat) (st : TwState), st.attempts + k = 10 → k ≤ fuel →
      (∀ j, i ≤ j → j < i + k → ∃ els, env.pages j = .ok els) →
      (∀ j, i < j → j ≤ i + k → env.heights j = .ok st.lastHeight) →
      ∃ ts e, scrapeTweetsGo env u m fuel i st = some (ts, e) ∧ e ≠ TwExit.aborted ∧
        st.tweets <+: ts
  | 0, fuel, i, st, hk, _, _, _ =>
    scrapeTweetsGo_exits env u m fuel i st (by omega)
  | k + 1, fuel, i, st, hk, hfuel, hp, hh => by
    have hatt : st.attempts < 10 := by omega
    cases fuel with
    | zero => omega
    | succ f =>
      by_cases hl : m ≤ st.tweets.length
      · refine ⟨st.tweets, .target, ?_, by decide, List.prefix_refl _⟩
        unfold scrapeTweetsGo
        rw [if_pos hl]
      · obtain ⟨els, hels⟩ := hp i (le_refl i) (by omega)
        have hheight : env.heights (i + 1) = .ok st.lastHeight := hh (i + 1) (by omega) (by omega)
        have hframe := mergeTweets_frame u m els st
        have hadv : advanceHeight (mergeTweets u m st els) st.lastHeight =
            { tweets := (mergeTweets u m st els).tweets,
              seen := (mergeTweets u m st els).seen,
              lastHeight := st.lastHeight,
              attempts := (mergeTweets u m st els).attempts + 1 } := by
          unfold advanceHeight
          rw [if_pos hframe.1.symm]
        obtain ⟨ts, e, hgo, hne, hpre⟩ :=
          scrapeTweetsGo_noGrowth env u m k f (i + 1)
            { tweets := (mergeTweets u m st els).tweets,
              seen := (mergeTweets u m st els).seen,
              lastHeight := st.lastHeight,
              attempts := (mergeTweets u m st els).attempts + 1 }
            (by dsimp only; rw [hframe.2.1]; omega) (by omega)
            (fun j hj1 hj2 => hp j (by omega) (by omega))
            (fun j hj1 hj2 => hh j (by omega) (by omega))
        refine ⟨ts, e, ?_, hne, hframe.2.2.trans hpre⟩
        unfold scrapeTweetsGo
        rw [if_neg hl, if_neg (by omega : ¬ 10 ≤ st.attempts)]
        simp only [hels, hheight]
        rw [hadv]
        exact hgo

/-- C8.  (i) The no-growth counter resets to 0 whenever the observed
scroll height changes.  (ii) From any live loop state, if the next
`10 - attempts` page reads succeed and every height read in that window
returns the current height unchanged, the loop terminates (with enough
fuel), without an abort, returning a list extending the tweets collected
so far — content exhaustion is a normal exit, not a failure. -/
theorem C8_no_growth_termination :
    (∀ (st : TwState) (h : Int), h ≠ st.lastHeight → (advanceHeight st h).attempts = 0)
    ∧ (∀ (env : PageEnv TweetElem) (u : String) (m fuel i : Nat) (st : TwState),
        st.attempts ≤ 10 → 10 - st.attempts ≤ fuel →
        (∀ j, i ≤ j → j < i + (10 - st.attempts) → ∃ els, env.pages j = .ok els) →
        (∀ j, i < j → j ≤ i + (10 - st.attempts) → env.heights j = .ok st.lastHeight) →
        ∃ ts e, scrapeTweetsGo env u m fuel i st = some (ts, e) ∧ e ≠ TwExit.aborted ∧
          st.tweets <+: ts) := by
  constructor
  · intro st h hne
    unfold advanceHeight
    rw [if_neg hne]
  · intro env u m fuel i st hatt hfuel hp hh
    exact scrapeTweetsGo_noGrowth env u m (10 - st.attempts) fuel i st (by omega) hfuel hp hh

/-- Static page for the C8 witness: constant height, empty page reads. -/
def envC8 : PageEnv TweetElem :=
  { nav := true, pages := fun _ => .ok [], heights := fun _ => .ok 7 }

theorem C8_witness :
    (advanceHeight { lastHeight := 0 } 5).attempts = 0 ∧
    ∃ ts e, scrapeTweetsGo envC8 "u" 20 10 0 { lastHeight := 7 } = some (ts, e) ∧
      e ≠ TwExit.aborted ∧ ([] : List Tweet) <+: ts :=
  ⟨C8_no_growth_termination.1 { lastHeight := 0 } 5 (by decide),
   C8_no_growth_termination.2 envC8 "u" 20 10 0 { lastHeight := 7 } (by decide) (by decide)
     (fun j _ _ => ⟨[], rfl⟩) (fun j _ _ => rfl)⟩

/-! ## C9: `scrape_tweets` contains every exception -/

/-- Reference execution: the loop state at the head of iteration `k`,
defined when nothing raised and the loop neither hit the target nor the
no-growth bound before `k`.  Its `tweets` field is exactly what the run
has collected before iteration `k` begins. -/
def tweetsStateIter (env : PageEnv TweetElem) (u : String) (m : Nat) : Nat → Option TwState
  | 0 =>
    match env.heights 0 with
    | .error _ => none
    | .ok h0 => some { lastHeight := h0 }
  | k + 1 =>
    match tweetsStateIter env u m k with
    | none => none
    | some st =>
      if m ≤ st.tweets.length then none
      else if 10 ≤ st.attempts then none
      else
        match env.pages k, env.heights (k + 1) with
        | .ok els, .ok h => some (advanceHeight (mergeTweets u m st els) h)
        | _, _ => none

theorem tweetsStateIter_zero_isSome (env : PageEnv TweetElem) (u : String) (m : Nat) :
    ∀ (k : Nat) (st : TwState), tweetsStateIter env u m k = some st →
      ∃ h0, env.heights 0 = .ok h0 ∧
        tweetsStateIter env u m 0 = some { lastHeight := h0 }
  | 0, st, h => by
    unfold tweetsStateIter at h ⊢
    cases hh : env.heights 0 with
    | error e => rw [hh] at h; cases h
    | ok h0 => exact ⟨h0, rfl, rfl⟩
  | k + 1, st, h => by
    unfold tweetsStateIter at h
    cases hprev : tweetsStateIter env u m k with
    | none => rw [hprev] at h; cases h
    | some st' => exact tweetsStateIter_zero_isSome env u m k st' hprev

/-- Running the loop from the start is running it from any reference
state it reaches. -/
theorem tweetsStateIter_go (env : PageEnv TweetElem) (u : String) (m : Nat) :
    ∀ (k fuel : Nat) (st st0 : TwState),
      tweetsStateIter env u m k = some st →
      tweetsStateIter env u m 0 = some st0 →
      scrapeTweetsGo env u m (k + fuel) 0 st0 = scrapeTweetsGo env u m fuel k st
  | 0, fuel, st, st0, h, h0 => by
    rw [h] at h0
    cases h0
    rw [Nat.zero_add]
  | k + 1, fuel, st, st0, h, h0 => by
    unfold tweetsStateIter at h
    cases hprev : tweetsStateIter env u m k with
    | none => rw [hprev] at h; cases h
    | some st' =>
      rw [hprev] at h
      dsimp only at h
      by_cases hlen : m ≤ st'.tweets.length
      · rw [if_pos hlen] at h; cases h
      · rw [if_neg hlen] at h
        by_cases hatt : 10 ≤ st'.attempts
        · rw [if_pos hatt] at h; cases h
        · rw [if_neg hatt] at h
          cases hp : env.pages k with
          | error e => rw [hp] at h; cases h
          | ok els =>
            cases hh : env.heights (k + 1) with
            | error e => rw [hp, hh] at h; cases h
            | ok hgt =>
              rw [hp, hh] at h
              dsimp only at h
              cases h
              have hshift : k + 1 + fuel = k + (fuel + 1) := by omega
              rw [hshift, tweetsStateIter_go env u m k (fuel + 1) st' st0 hprev h0]
              conv_lhs => unfold scrapeTweetsGo
              rw [if_neg hlen, if_neg hatt, hp]
              dsimp only
              rw [hh]

/-- C9.  `scrape_tweets` never propagates an exception: (i) a failed
navigation returns `[]`; (ii) a failing initial height read returns `[]`;
(iii) an exception at the page read of iteration `k` returns exactly the
tweets collected before iteration `k`; (iv) an exception at the
scroll-height read of iteration `k` returns the tweets collected through
iteration `k`'s extraction. -/
theorem C9_no_exception_escapes :
    (∀ (env : PageEnv TweetElem) (u : String) (m fuel : Nat),
        env.nav = false → scrape_tweets env u m fuel = some [])
    ∧ (∀ (env : PageEnv TweetElem) (u : String) (m fuel : Nat),
        env.nav = true → env.heights 0 = .error () → scrape_tweets env u m fuel = some [])
    ∧ (∀ (env : PageEnv TweetElem) (u : String) (m fuel k : Nat) (st : TwState),
        env.nav = true → tweetsStateIter env u m k = some st →
        st.tweets.length < m → st.attempts < 10 →
        env.pages k = .error () → k < fuel →
        scrape_tweets env u m fuel = some st.tweets)
    ∧ (∀ (env : PageEnv TweetElem) (u : String) (m fuel k : Nat) (st : TwState)
         (els : List TweetElem),
        env.nav = true → tweetsStateIter env u m k = some st →
        st.tweets.length < m → st.attempts < 10 →
        env.pages k = .ok els → env.heights (k + 1) = .error () → k < fuel →
        scrape_tweets env u m fuel = some (mergeTweets u m st els).tweets) := by
  refine ⟨?_, ?_, ?_, ?_⟩
  · intro env u m fuel hnav
    unfold scrape_tweets scrapeTweetsFull
    rw [hnav]
    rfl
  · intro env u m fuel hnav hh0
    unfold scrape_tweets scrapeTweetsFull
    rw [hnav, hh0]
    rfl
  · intro env u m fuel k st hnav hiter hlen hatt hpage hfuel
    obtain ⟨h0, hh0, hiter0⟩ := tweetsStateIter_zero_isSome env u m k st hiter
    unfold scrape_tweets scrapeTweetsFull
    rw [hnav, hh0]
    dsimp only
    have hsplit : fuel = k + (fuel - k) := by omega
    rw [hsplit, tweetsStateIter_go env u m k (fuel - k) st _ hiter hiter0]
    cases hfk : fuel - k with
    | zero => omega
    | succ f =>
      unfold scrapeTweetsGo
      rw [if_neg (by omega : ¬ m ≤ st.tweets.length),
          if_neg (by omega : ¬ 10 ≤ st.attempts), hpage]
      rfl
  · intro env u m fuel k st els hnav hiter hlen hatt hpage hheight hfuel
    obtain ⟨h0, hh0, hiter0⟩ := tweetsStateIter_zero_isSome env u m k st hiter
    unfold scrape_tweets scrapeTweetsFull
    rw [hnav, hh0]
    dsimp only
    have hsplit : fuel = k + (fuel - k) := by omega
    rw [hsplit, tweetsStateIter_go env u m k (fuel - k) st _ hiter hiter0]
    cases hfk : fuel - k with
    | zero => omega
    | succ f =>
      unfold scrapeTweetsGo
      rw [if_neg (by omega : ¬ m ≤ st.tweets.length),
          if_neg (by omega : ¬ 10 ≤ st.attempts), hpage]
      dsimp only
      rw [hheight]
      rfl

/-- Environments for the C9 witness: a failed navigation, and a page
read that raises on the very first iteration. -/
def envC9nav : PageEnv TweetElem :=
  { nav := false, pages := fun _ => .ok [], heights := fun _ => .ok 0 }

def envC9page : PageEnv TweetElem :=
  { nav := true, pages := fun _ => .error (), heights := fun _ => .ok 0 }

theorem C9_witness :
    scrape_tweets envC9nav "u" 5 3 = some [] ∧
    scrape_tweets envC9page "u" 5 3 = some [] :=
  ⟨C9_no_exception_escapes.1 envC9nav "u" 5 3 rfl,
   C9_no_exception_escapes.2.2.1 envC9page "u" 5 3 0 { lastHeight := 0 } rfl rfl
     (by decide) (by decide) rfl (by decide)⟩

/-! ## C1: the job lifecycle -/

/-- C1 (amended to jobs started through `/discover`).  A record created
by `start_discovery_job` is `pending`; a terminating `run_discovery_job`
writes exactly `running` followed by exactly one of `completed`/`failed`
to its record's status field (no later write exists — the status-poll
handler only reads), storing a result exactly in the first case and an
error exactly in the second. -/
theorem C1_discovery_job_lifecycle :
    (∀ (jobId : String) (usernames : List String) (rec : JobRecord),
        startDiscoveryJob jobId usernames = some rec → rec.status = .pending)
    ∧ (∀ (env : DiscoveryEnv) (rec : JobRecord) (usernames : List String)
         (userId callbackUrl : Option String) (fuel : Nat)
         (out : JobRecord × List JobStatus × DiscState),
        runDiscoveryJob env rec usernames userId callbackUrl fuel = some out →
        (out.2.1 = [.running, .completed] ∧ out.1.status = .completed ∧
          out.1.result ≠ none ∧ out.1.error = rec.error)
        ∨ (out.2.1 = [.running, .failed] ∧ out.1.status = .failed ∧
          out.1.error ≠ none ∧ out.1.result = rec.result)) := by
  constructor
  · intro jobId usernames rec h
    unfold startDiscoveryJob at h
    split at h
    · cases h
    · cases h; rfl
  · intro env rec usernames userId callbackUrl fuel out h
    unfold runDiscoveryJob at h
    by_cases hinit : env.initOk = false
    · rw [if_pos hinit] at h
      cases h
      right
      exact ⟨rfl, rfl, by simp, rfl⟩
    · rw [if_neg hinit] at h
      cases hds : discoveryCollect env usernames userId callbackUrl fuel with
      | none => rw [hds] at h; cases h
      | some ds =>
        rw [hds] at h
        dsimp only at h
        by_cases hclose : env.closeOk = false
        · rw [if_pos hclose] at h
          cases h
          right
          exact ⟨rfl, rfl, by simp, rfl⟩
        · rw [if_neg hclose] at h
          cases h
          left
          exact ⟨rfl, rfl, by simp, rfl⟩

/-- Environment and record for the C1 witness. -/
def envC1 : DiscoveryEnv :=
  { profilePage := fun _ => some {},
    tweetsEnv := fun _ => { nav := false, pages := fun _ => .ok [], heights := fun _ => .ok 0 },
    followingEnv := fun _ => { nav := false, pages := fun _ => .ok [], heights := fun _ => .ok 0 } }

def recC1 : JobRecord :=
  { id := "j1", status := .pending, progress := "Job created, starting soon...",
    usernames := ["a"] }

def outC1 : JobRecord × List JobStatus × DiscState :=
  (runDiscoveryJob envC1 recC1 ["a"] none none 1).get (by decide)

theorem C1_witness :
    recC1.status = .pending ∧
    ((outC1.2.1 = [.running, .completed] ∧ outC1.1.status = .completed ∧
        outC1.1.result ≠ none ∧ outC1.1.error = recC1.error)
     ∨ (outC1.2.1 = [.running, .failed] ∧ outC1.1.status = .failed ∧
        outC1.1.error ≠ none ∧ outC1.1.result = recC1.result)) :=
  ⟨C1_discovery_job_lifecycle.1 "j1" ["a"] recC1 (by decide),
   C1_discovery_job_lifecycle.2 envC1 recC1 ["a"] none none 1 outC1 (Option.some_get _).symm⟩

/-- A sync-job environment in which every scrape returns quickly. -/
def syncEnvC1 : SyncEnv :=
  { tweetsEnv := fun _ => { nav := false, pages := fun _ => .ok [], heights := fun _ => .ok 0 },
    sink := fun _ _ => some 200 }

def recSyncC1 : JobRecord :=
  { id := "job-s", status := .pending, progress := "Job created, starting soon...",
    usernames := ["alice"] }

/-- C1 counterexample.  A job submitted through `/sync-tweets` is stored
as `pending`, but `run_tweet_sync_job` (src/jobs/tweet_sync.py) never
references the `jobs` store: its background execution runs to completion
with zero writes to the record's status, which therefore never becomes
`running`, `completed` or `failed` — refuting the claim for the
tweet-sync endpoint. -/
theorem C1_counterexample_sync_stays_pending :
    startTweetSyncJob "job-s" ["alice"] = some recSyncC1 ∧
    runTweetSyncJob syncEnvC1 [("job-s", recSyncC1)] ["alice"] "http://cb" "u1" 1 =
      some ([("job-s", recSyncC1)], [], [], 0) ∧
    (getJobStatus [("job-s", recSyncC1)] "job-s").map (fun v => v.1) = some .pending := by
  refine ⟨by decide, by decide, by decide⟩

/-! ## C3: the discovery job's sink hand-off -/

theorem phase1SinkAttempt_delivered (st : DiscState) (u : String) (ts : List Tweet)
    (userId : Option String) :
    (phase1SinkAttempt st u ts userId).delivered = st.delivered := by
  unfold phase1SinkAttempt mainHasRequestsImport
  rfl

theorem phase1_delivered (env : DiscoveryEnv) (userId callbackUrl : Option String)
    (fuel : Nat) :
    ∀ (usernames : List String) (st st' : DiscState),
      phase1 env userId callbackUrl fuel usernames st = some st' →
      st'.delivered = st.delivered
  | [], st, st', h => by cases h; rfl
  | u :: rest, st, st', h => by
    unfold phase1 at h
    split at h
    · exact phase1_delivered env userId callbackUrl fuel rest st st' h
    · cases hsp : scrape_profile env u with
      | none =>
        rw [hsp] at h
        exact phase1_delivered env userId callbackUrl fuel rest st st' h
      | some p =>
        rw [hsp] at h
        dsimp only at h
        split at h
        · cases hts : scrape_tweets (env.tweetsEnv u) u 10 fuel with
          | none => rw [hts] at h; cases h
          | some ts =>
            rw [hts] at h
            dsimp only at h
            split at h
            · have h2 := phase1_delivered env userId callbackUrl fuel rest _ st' h
              rw [h2, phase1SinkAttempt_delivered]
            · have h2 := phase1_delivered env userId callbackUrl fuel rest _ st' h
              rw [h2]
        · have h2 := phase1_delivered env userId callbackUrl fuel rest _ st' h
          rw [h2]

theorem promoteStubs_sink_frame (env : DiscoveryEnv) :
    ∀ (stubs : List Profile) (count : Nat) (st : DiscState),
      (promoteStubs env stubs count st).built = st.built ∧
      (promoteStubs env stubs count st).delivered = st.delivered
  | [], _, _ => ⟨rfl, rfl⟩
  | p :: rest, count, st => by
    unfold promoteStubs
    split
    · cases scrape_profile env p.username with
      | some fullP =>
        dsimp only
        split
        · exact ⟨rfl, rfl⟩
        · exact promoteStubs_sink_frame env rest _ _
      | none =>
        dsimp only
        split
        · exact ⟨rfl, rfl⟩
        · exact promoteStubs_sink_frame env rest _ _
    · exact promoteStubs_sink_frame env rest count st

theorem phase2_sink_frame (env : DiscoveryEnv) (fuel : Nat) :
    ∀ (usernames : List String) (st st' : DiscState),
      phase2 env fuel usernames st = some st' →
      st'.built = st.built ∧ st'.delivered = st.delivered
  | [], st, st', h => by cases h; exact ⟨rfl, rfl⟩
  | u :: rest, st, st', h => by
    unfold phase2 at h
    split at h
    · cases h; exact ⟨rfl, rfl⟩
    · cases hf : scrape_following (env.followingEnv u) 10 fuel with
      | none => rw [hf] at h; cases h
      | some following =>
        rw [hf] at h
        have h2 := phase2_sink_frame env fuel rest _ st' h
        have h1 := promoteStubs_sink_frame env following 0 st
        exact ⟨h2.1.trans h1.1, h2.2.trans h1.2⟩

/-- Environment for the C3 failing input: the seed's profile resolves
and its tweet scrape yields one tweet before a scroll exception ends the
collection, so the payload is built. -/
def envC3 : DiscoveryEnv :=
  { profilePage := fun _ => some {},
    tweetsEnv := fun _ =>
      { nav := true,
        pages := fun _ => .ok [{ tweetText := some "hello" }],
        heights := fun i => if i = 0 then .ok 0 else .error () },
    followingEnv := fun _ => { nav := false, pages := fun _ => .ok [], heights := fun _ => .ok 0 } }

/-- C3 (code bug).  The spec and the code's own structure intend each
successfully scraped seed's recent posts to be POSTed to the configured
sink, but `src/main.py` never imports `requests`: the lookup raises
`NameError`, the broad `except` logs it, and no discovery run ever
delivers anything to the sink — even when (second conjunct) the seed
resolves, ten-or-fewer tweets are collected, and the payload is built. -/
theorem C3_sink_post_never_delivered :
    (∀ (env : DiscoveryEnv) (usernames : List String) (userId callbackUrl : Option String)
       (fuel : Nat) (st : DiscState),
        discoveryCollect env usernames userId callbackUrl fuel = some st →
        st.delivered = [])
    ∧ (discoveryCollect envC3 ["alice"] (some "u1") (some "http://cb") 1).map
        (fun st => (st.built.map SinkPayload.username, st.delivered)) =
      some (["alice"], []) := by
  constructor
  · intro env usernames userId callbackUrl fuel st h
    unfold discoveryCollect at h
    cases h1 : phase1 env userId callbackUrl fuel usernames {} with
    | none => rw [h1] at h; cases h
    | some st1 =>
      rw [h1] at h
      have hp2 := phase2_sink_frame env fuel usernames st1 st h
      have hp1 := phase1_delivered env userId callbackUrl fuel usernames {} st1 h1
      rw [hp2.2, hp1]
  · decide

theorem C3_witness :
    ((discoveryCollect envC3 ["alice"] (some "u1") (some "http://cb") 1).get
      (by decide)).delivered = [] :=
  C3_sink_post_never_delivered.1 envC3 ["alice"] (some "u1") (some "http://cb") 1 _
    (Option.some_get _).symm

/-! ## C7: scenario A (seed alice resolves, bob fails entirely) -/

/-- A listing cell whose link points at the given handle. -/
def cellC7 (handle : String) : UserCell := { linkHref := some ("/" ++ handle) }

/-- A profile page carrying only a followers-link text. -/
def ppC7 (followersText : String) : ProfilePage := { followersLinkText := some followersText }

/-- The claim's scenario: alice's profile and four promotable
connections resolve; bob's navigation fails everywhere. -/
def envC7 : DiscoveryEnv :=
  { profilePage := fun u =>
      if u = "alice" then some (ppC7 "100 Followers")
      else if u = "c1" then some (ppC7 "90 Followers")
      else if u = "c2" then some (ppC7 "80 Followers")
      else if u = "c3" then some (ppC7 "70 Followers")
      else if u = "c4" then some (ppC7 "60 Followers")
      else none,
    tweetsEnv := fun _ => { nav := false, pages := fun _ => .ok [], heights := fun _ => .ok 0 },
    followingEnv := fun u =>
      if u = "alice" then
        { nav := true,
          pages := fun _ => .ok [cellC7 "c1", cellC7 "c2", cellC7 "c3", cellC7 "c4",
                                 cellC7 "c5", cellC7 "c6", cellC7 "c7", cellC7 "c8",
                                 cellC7 "c9", cellC7 "c10"],
          heights := fun _ => .ok 0 }
      else { nav := false, pages := fun _ => .ok [], heights := fun _ => .ok 0 } }

def recC7 : JobRecord :=
  { id := "job-d", status := .pending, progress := "Job created, starting soon...",
    usernames := ["alice", "bob"] }

def outC7 : JobRecord × List JobStatus × DiscState :=
  (runDiscoveryJob envC7 recC7 ["alice", "bob"] none none 2).get (by decide)

/-- C7 counterexample.  In exactly the claimed scenario — seeds
`["alice","bob"]`, alice resolving and yielding 4 promoted connections,
bob failing entirely so bob is excluded — the job completes with a result
of length 5 (alice plus four connections), not 6. -/
theorem C7_counterexample_result_length_five :
    startDiscoveryJob "job-d" ["alice", "bob"] = some recC7 ∧
    runDiscoveryJob envC7 recC7 ["alice", "bob"] none none 2 = some outC7 ∧
    outC7.1.status = .completed ∧
    outC7.1.result.map List.length = some 5 ∧
    outC7.1.result.map List.length ≠ some 6 := by
  exact ⟨by decide, (Option.some_get _).symm, by decide, by decide, by decide⟩

/-- C7 (amended).  The scenario's run ends `completed` with result
`[alice, c1, c2, c3, c4]` — length 5 — ranked by follower count. -/
theorem C7_amended_scenario :
    outC7.1.status = .completed ∧
    outC7.1.result.map (List.map Profile.username) =
      some ["alice", "c1", "c2", "c3", "c4"] ∧
    outC7.1.result.map (List.map Profile.followers_count) =
      some [100, 90, 80, 70, 60] := by
  exact ⟨by decide, by decide, by decide⟩

end TwScrap
